import Mathlib

/-!
Shallow embedding of the staged-upload pipeline of this repository
(`src/multer.js` and `src/cloudinary.js`).

Pure computations (filename generation, the `fileFilter` validators, JSON
body shaping) are translated directly into Lean functions.  The effectful
parts of one request (the outcome of `cloudinary.uploader.upload` and of each
successive `fs.unlink` attempt on the staged file) are made explicit as an
environment record, and each Express handler becomes a function from that
environment to the response it sends plus the filesystem accounting of the
request (how many unlink attempts were made, whether the staged file is gone).

Numbers (`Date.now()`, `Math.round(Math.random()*1e9)`, byte sizes) are
modelled as `Nat`; JS number-to-string coercion inside template literals and
string concatenation is `Nat.repr`.
-/

/- ## String helpers (the JS string primitives the source relies on) -/

/-- Character-list prefix test (executable). -/
def isPref : List Char → List Char → Bool
  | [], _ => true
  | _ :: _, [] => false
  | a :: as, b :: bs => a == b && isPref as bs

/-- `hasSub needle hay`: `needle` occurs as a contiguous run inside `hay`.
This is the semantics of a JS regex literal made of plain alternatives, e.g.
`/jpeg|jpg|png|gif/.test(hay)` is `hasSub` of one of the four words. -/
def hasSub (needle : List Char) : List Char → Bool
  | [] => isPref needle []
  | c :: rest => isPref needle (c :: rest) || hasSub needle rest

/-- Character-list suffix test, via reversal. -/
def isSuffixCL (suffix hay : List Char) : Bool :=
  isPref suffix.reverse hay.reverse

/-- ASCII lower-casing of a string, the behaviour of
`String.prototype.toLowerCase()` on the ASCII names used throughout the
source. -/
def strLower (s : String) : String :=
  ⟨s.data.map Char.toLower⟩

/- ## Node `path` helpers (posix), as used by both source files -/

/-- The last `/`-separated component of a path: the common first step of
Node's `path.basename` and `path.extname`. -/
def lastComp (s : List Char) : List Char :=
  (s.reverse.takeWhile (fun c => c != '/')).reverse

/-- Node `path.extname(p)`: the suffix of the last path component starting at
its last dot, or the empty string when the component has no dot or its only
dot is the leading character (dotfiles).  (All-dot components such as `..`,
which Node special-cases, are not used by any claim.) -/
def extname (s : String) : String :=
  let c := lastComp s.data
  let afterRev := c.reverse.takeWhile (fun ch => ch != '.')
  if afterRev.length = c.length then ""
  else if afterRev.length + 1 = c.length then ""
  else ⟨c.drop (c.length - afterRev.length - 1)⟩

/-- Node `path.basename(p, ext)`: the last path component, with a trailing
`ext` removed when `ext` is nonempty, is a proper suffix of the component and
is not the whole component. -/
def basenameExt (s ext : String) : String :=
  let c := lastComp s.data
  if !ext.data.isEmpty && isSuffixCL ext.data c && c.length != ext.data.length then
    ⟨c.take (c.length - ext.data.length)⟩
  else ⟨c⟩

/- ## Staged-file name generation -/

/-- `src/multer.js`, `storage.filename` (lines 26-34):
`uniquename` is the template literal `filenamewithoutExt-Date.now()ext` with
`ext = path.extname(file.originalname)` and
`filenamewithoutExt = path.basename(file.originalname, ext)`.
Note there is no random component in this file. -/
def multerFilename (originalname : String) (now : Nat) : String :=
  let ext := extname originalname
  let filenamewithoutExt := basenameExt originalname ext
  filenamewithoutExt ++ "-" ++ Nat.repr now ++ ext

/-- `src/cloudinary.js`, disk-storage `filename` callback (lines 117-122):
`uniqueSuffix = Date.now() + '-' + Math.round(Math.random() * 1E9)` and the
generated name is `basename + '-' + uniqueSuffix + ext`. -/
def cloudFilename (originalname : String) (now rand : Nat) : String :=
  let ext := extname originalname
  let basename := basenameExt originalname ext
  basename ++ "-" ++ (Nat.repr now ++ "-" ++ Nat.repr rand) ++ ext

/- ## Validators (the `fileFilter` callbacks) -/

/-- Outcome of a multer `fileFilter` callback: `cb(null, true)` is `accept`,
`cb(new Error(reason))` is `reject reason`. -/
inductive FilterResult where
  | accept
  | reject (reason : String)
  deriving DecidableEq, Repr

/-- The `allowedTypes` list of `src/multer.js` line 44. -/
def allowedTypes : List String :=
  ["image/jpeg", "image/jpg", "image/png", "image/gif"]

/-- `src/multer.js`, `fileFilter` (lines 38-50): accepts iff the declared
MIME type is in `allowedTypes`; the original filename is never consulted. -/
def multerFileFilter (_originalname mimetype : String) : FilterResult :=
  if allowedTypes.contains mimetype then .accept
  else .reject "Invalid file type. Only JPEG, PNG and GIF are allowed."

/-- The four alternatives of the regex literal `/jpeg|jpg|png|gif/` of
`src/cloudinary.js` line 166. -/
def imageTokens : List String := ["jpeg", "jpg", "png", "gif"]

/-- JS `/jpeg|jpg|png|gif/.test(s)`: some alternative occurs as a substring
of `s` (regex `test` searches anywhere in the string, it does not anchor). -/
def imageRegexTest (s : String) : Bool :=
  imageTokens.any (fun t => hasSub t.data s.data)

/-- `src/cloudinary.js`, the image `upload` instance `fileFilter`
(lines 165-174): `extname` is the regex test on the lower-cased
`path.extname(file.originalname)`, `mimetype` is the regex test on the raw
`file.mimetype`; accept iff both hold, else
`cb(new Error('Only images are allowed'))`. -/
def imageFileFilter (originalname mimetype : String) : FilterResult :=
  let extnameOk := imageRegexTest (strLower (extname originalname))
  let mimetypeOk := imageRegexTest mimetype
  if mimetypeOk && extnameOk then .accept
  else .reject "Only images are allowed"

/- ## The effectful pipeline of `src/cloudinary.js` -/

/-- The fields of a Cloudinary upload result that the handlers of
`src/cloudinary.js` read (`result.secure_url`, `result.public_id`); the
remaining provider-assigned fields are never inspected by the source and are
elided. -/
structure RemoteResult where
  secure_url : String
  public_id : String
  deriving DecidableEq, Repr

/-- The environment of effect outcomes for one request:
what `cloudinary.uploader.upload` resolves or rejects with, and whether each
successive `fs.unlink` attempt on the staged file would succeed when the file
is still present (`u1` the first attempt of the request, `u2` the second,
`u3` the third; at most three are ever made).  An unlink attempt on an
already-deleted file always fails (ENOENT), independent of these flags. -/
structure CloudEnv where
  uploadResult : Except String RemoteResult
  u1 : Bool
  u2 : Bool
  u3 : Bool
  deriving Repr

/-- Whether the remote upload call of the environment succeeds. -/
def uploadOk (env : CloudEnv) : Bool :=
  match env.uploadResult with
  | .ok _ => true
  | .error _ => false

/-- One `fs.unlink` attempt on the staged file: succeeds iff the file is
still present and the environment lets this attempt succeed.  Returns
(attempt succeeded, file still present afterwards). -/
def attemptUnlink (present ok : Bool) : Bool × Bool :=
  if present then (ok, !ok) else (false, false)

/-- `src/cloudinary.js`, `deleteLocalFile` (lines 225-234): a single unlink
attempt whose error is swallowed; resolves `true` on success and `false` on
failure.  Same state transition as `attemptUnlink`. -/
def deleteLocalFile (present ok : Bool) : Bool × Bool :=
  attemptUnlink present ok

/-- What one call of `uploadAndCleanup` produced: the value the promise
resolved with (`some` provider result, or `none` for `undefined`), the number
of unlink attempts it made, and whether the staged file is gone afterwards. -/
structure CleanupOutcome where
  result : Option RemoteResult
  attempts : Nat
  fileGone : Bool
  deriving DecidableEq, Repr

/-- `src/cloudinary.js`, `uploadAndCleanup` (lines 209-224): awaits the
provider upload, then unlinks the staged file and returns the provider
result.  Any error — a rejected upload or a failed first unlink — lands in
the catch block, which attempts one more unlink (its own failure only
logged) and falls off the end of the function, so on every failure path the
promise resolves with `undefined` (`none` here) and never rejects. -/
def uploadAndCleanup (env : CloudEnv) : CleanupOutcome :=
  match env.uploadResult with
  | .ok result =>
    let (ok1, present1) := attemptUnlink true env.u1
    if ok1 then
      { result := some result, attempts := 1, fileGone := true }
    else
      let (_, present2) := attemptUnlink present1 env.u2
      { result := none, attempts := 2, fileGone := !present2 }
  | .error _ =>
    let (_, present1) := attemptUnlink true env.u1
    { result := none, attempts := 1, fileGone := !present1 }

/- ## Responses and request handlers -/

/-- The message carried by the TypeError raised when the profile handler
reads `.secure_url` off the `undefined` that `uploadAndCleanup` resolved
with on a failure path (the JS runtime wording is paraphrased; what matters
is that it is the TypeError of the handler itself, not the provider
detail). -/
def typeErrMsg : String :=
  "TypeError: cannot read secure_url of undefined"

/-- The JSON bodies the three single-file handlers can send. -/
inductive RespBody where
  | noFileErr (msg : String)
  | imageOk (data : Option RemoteResult)
  | profileOk (username userId : Option String)
      (avatarUrl avatarPublicId : String) (data : RemoteResult)
  | serverErr (error details : String)
  | multerSingleOk (originalName savedAs path : String) (sizeBytes : Nat)
  deriving DecidableEq, Repr

/-- An HTTP response: status code and JSON body. -/
structure Response where
  status : Nat
  body : RespBody
  deriving DecidableEq, Repr

/-- What running one handler on one request amounts to: the response sent,
plus the request-wide unlink accounting for the staged file (zero attempts
when no file was staged; `fileGone` is vacuously `true` in that case). -/
structure HandlerResult where
  resp : Response
  attempts : Nat
  fileGone : Bool
  deriving DecidableEq, Repr

/-- `req.file` as staged by multer disk storage for the `src/cloudinary.js`
handlers: only its `path` is read by them. -/
structure StagedFile where
  path : String
  deriving DecidableEq, Repr

/-- `src/cloudinary.js`, `POST /api/upload/image` handler (lines 236-271):
400 when no file arrived; otherwise awaits `uploadAndCleanup` — which never
rejects — and replies 200 `Image uploaded successfully` with `data` set to
whatever it resolved with (`undefined` on every failure path).  The catch
block is unreachable because nothing in the try can throw. -/
def imageHandler (file : Option StagedFile) (env : CloudEnv) : HandlerResult :=
  match file with
  | none =>
    { resp := { status := 400, body := .noFileErr "No file uploaded" },
      attempts := 0, fileGone := true }
  | some _ =>
    let o := uploadAndCleanup env
    { resp := { status := 200, body := .imageOk o.result },
      attempts := o.attempts, fileGone := o.fileGone }

/-- `src/cloudinary.js`, `POST /api/upload/profile` handler (lines 273-321):
400 when no file arrived; otherwise awaits `uploadAndCleanup`.  When that
resolved with a result, replies 200 with the avatar URL/public id and the
full result.  When it resolved with `undefined` (any failure path), reading
`result.secure_url` throws a TypeError, so the catch block runs
`deleteLocalFile` on `req.file.path` once more and replies 500 with the
TypeError message as `details`. -/
def profileHandler (file : Option StagedFile) (username userId : Option String)
    (env : CloudEnv) : HandlerResult :=
  match file with
  | none =>
    { resp := { status := 400, body := .noFileErr "no profile image uploaded" },
      attempts := 0, fileGone := true }
  | some _ =>
    let o := uploadAndCleanup env
    match o.result with
    | some result =>
      { resp := { status := 200,
                  body := .profileOk username userId
                    result.secure_url result.public_id result },
        attempts := o.attempts, fileGone := o.fileGone }
    | none =>
      let (_, present) := deleteLocalFile (!o.fileGone) env.u3
      { resp := { status := 500, body := .serverErr "Server error" typeErrMsg },
        attempts := o.attempts + 1, fileGone := !present }

/-- `req.file` as multer disk storage produces it for `src/multer.js`. -/
structure MulterFile where
  originalname : String
  filename : String
  path : String
  size : Nat
  deriving DecidableEq, Repr

/-- `src/multer.js`, `POST /upload-single` handler (lines 61-79): 400 when no
file arrived, otherwise 200 echoing `originalName`, `savedAs`, the size and —
notably — `req.file.path`, the staged file's local filesystem path.  (The
display string `(size/1024).toFixed(2) KB` is floating-point formatting of
the byte count; the body here keeps the raw byte count it is derived from.) -/
def multerSingleHandler (file : Option MulterFile) : Response :=
  match file with
  | none => { status := 400, body := .noFileErr "No file uploaded" }
  | some f =>
    { status := 200,
      body := .multerSingleOk f.originalname f.filename f.path f.size }

/-- Every string a response body exposes to the caller. -/
def bodyStrings : RespBody → List String
  | .noFileErr m => [m]
  | .imageOk none => []
  | .imageOk (some r) => [r.secure_url, r.public_id]
  | .profileOk u uid aUrl aId r =>
      u.toList ++ uid.toList ++ [aUrl, aId, r.secure_url, r.public_id]
  | .serverErr e d => [e, d]
  | .multerSingleOk orig saved p _ => [orig, saved, p]

/- ## Parts modelled from the spec (library behaviour not under src/) -/

/-- Modelled from the spec: multer's per-file processing pipeline is library
code, absent from src/ (the repository only configures it).  Per the spec,
validation happens strictly before staging — the configured `fileFilter` runs
first, and only an accepted file is handed to the storage engine, which
performs the single filesystem write of the staged file under the generated
name; a rejected file produces no write. -/
structure PipelineOutcome where
  writes : List String
  decision : FilterResult
  deriving DecidableEq, Repr

/-- Modelled from the spec: one file flowing through multer's pipeline with a
configured filter and filename generator (see `PipelineOutcome`). -/
def processFile (filter : String → String → FilterResult)
    (nameGen : String → String) (dest originalname mimetype : String) :
    PipelineOutcome :=
  match filter originalname mimetype with
  | .reject r => { writes := [], decision := .reject r }
  | .accept =>
    { writes := [dest ++ nameGen originalname], decision := .accept }

/-- Modelled from the spec: multer's `limits.fileSize` enforcement is library
code, absent from src/.  A streamed file whose byte count exceeds the
configured ceiling is aborted with multer's distinct LIMIT_FILE_SIZE error
(message `File too large`); a file at or under the ceiling passes. -/
def sizeCheck (size limit : Nat) : FilterResult :=
  if size ≤ limit then .accept else .reject "File too large"

/-- `src/multer.js` line 56: `fileSize: 1024 * 1024 * 5`. -/
def multerFileSizeLimit : Nat := 1024 * 1024 * 5

/-- `src/cloudinary.js` line 164: `fileSize: 5 * 1024 * 1024` for the image
`upload` instance. -/
def imageFileSizeLimit : Nat := 5 * 1024 * 1024

/-- The provider-supplied strings an environment can contribute to a
response body: the fields of the remote result when the upload succeeds. -/
def envRemoteStrings (env : CloudEnv) : List String :=
  match env.uploadResult with
  | .ok r => [r.secure_url, r.public_id]
  | .error _ => []

/- ## Helper lemmas -/

/-- Cancelling a common prefix and a common suffix of a string
concatenation: the middle parts agree. -/
theorem append_middle_cancel (b s₁ s₂ e : String)
    (h : b ++ s₁ ++ e = b ++ s₂ ++ e) : s₁ = s₂ := by
  have hd := congrArg String.data h
  simp only [String.data_append] at hd
  rw [List.append_assoc, List.append_assoc] at hd
  have h1 : s₁.data ++ e.data = s₂.data ++ e.data :=
    List.append_cancel_left hd
  exact String.ext (List.append_cancel_right h1)

/- ## Claim theorems -/

/-- Claim C8: for every single-file request that arrives with zero files
under the declared field name, each handler returns a structured
missing-upload error with HTTP status 400, whose message is distinct from
both validator rejection reasons, and which is not the 500 server-error
shape. -/
theorem c8_missing_file_is_structured_400 :
    ∀ (env : CloudEnv) (u uid : Option String),
      multerSingleHandler none
          = { status := 400, body := .noFileErr "No file uploaded" }
        ∧ (imageHandler none env).resp
          = { status := 400, body := .noFileErr "No file uploaded" }
        ∧ (profileHandler none u uid env).resp
          = { status := 400, body := .noFileErr "no profile image uploaded" }
        ∧ (imageHandler none env).resp.status ≠ 500
        ∧ RespBody.noFileErr "No file uploaded"
          ≠ RespBody.serverErr "Server error" typeErrMsg
        ∧ ("No file uploaded" : String)
          ≠ "Invalid file type. Only JPEG, PNG and GIF are allowed."
        ∧ ("No file uploaded" : String) ≠ "Only images are allowed" := by
  intro env u uid
  exact ⟨rfl, rfl, rfl, by simp [imageHandler], by decide, by decide, by decide⟩

/-- Claim C9: a file whose size is exactly the policy ceiling passes the
size check, one byte over is rejected with the distinct `File too large`
reason; instantiated at the two configured limits of the repository. -/
theorem c9_size_boundary :
    ∀ lim : Nat,
      sizeCheck lim lim = .accept
        ∧ sizeCheck (lim + 1) lim = .reject "File too large"
        ∧ sizeCheck multerFileSizeLimit multerFileSizeLimit = .accept
        ∧ sizeCheck (multerFileSizeLimit + 1) multerFileSizeLimit
          = .reject "File too large"
        ∧ sizeCheck imageFileSizeLimit imageFileSizeLimit = .accept
        ∧ sizeCheck (imageFileSizeLimit + 1) imageFileSizeLimit
          = .reject "File too large"
        ∧ ("File too large" : String)
          ≠ "Invalid file type. Only JPEG, PNG and GIF are allowed."
        ∧ ("File too large" : String) ≠ "Only images are allowed" := by
  intro lim
  refine ⟨?_, ?_, by decide, by decide, by decide, by decide, by decide, by decide⟩
  · simp [sizeCheck]
  · unfold sizeCheck
    rw [if_neg (by omega)]

/-- Claim C10: `uploadAndCleanup` always resolves and never rejects; it
resolves with the provider result exactly when both the remote upload and
the first local unlink succeed, and with `undefined` in every other case,
so a remote-upload failure and a post-success cleanup failure are
indistinguishable from its resolved value. -/
theorem c10_uploadAndCleanup_resolution :
    ∀ (env : CloudEnv) (r : RemoteResult) (e : String) (r2 : RemoteResult)
      (b₂ b₃ c₂ c₃ : Bool),
      ((uploadAndCleanup env).result = some r
          ↔ env.uploadResult = .ok r ∧ env.u1 = true)
        ∧ (uploadAndCleanup ⟨.error e, true, b₂, b₃⟩).result
          = (uploadAndCleanup ⟨.ok r2, false, c₂, c₃⟩).result := by
  intro env r e r2 b₂ b₃ c₂ c₃
  refine ⟨?_, rfl⟩
  rcases env with ⟨ur, u1, u2, u3⟩
  cases ur <;> cases u1 <;>
    simp [uploadAndCleanup, attemptUnlink]

/-- Claim C3 counterexample: the `src/multer.js` validator accepts a file
named `malware.exe` as long as its declared MIME type is an allowed image
type — the extension is never checked — and the `src/cloudinary.js`
validator rejects the scenario-B file with the generic reason
`Only images are allowed`, which names no offending attribute. -/
theorem c3_counterexample :
    multerFileFilter "malware.exe" "image/png" = .accept
      ∧ imageFileFilter "malware.exe" "application/x-msdownload"
        = .reject "Only images are allowed" := by decide

/-- Claim C3 (amended): the `src/multer.js` validator decides from the
declared MIME type alone (its decision is independent of the filename) and
rejects with the constant reason `Invalid file type. Only JPEG, PNG and GIF
are allowed.`; the `src/cloudinary.js` validator accepts iff both the
lower-cased extension and the raw MIME string contain one of
jpeg|jpg|png|gif as a substring — not set membership, so the non-allowed
extension `.jpga` is accepted — and rejects with the constant reason
`Only images are allowed`; neither reason names the offending attribute. -/
theorem c3_validators_amended :
    ∀ (n₁ n₂ m : String),
      multerFileFilter n₁ m = multerFileFilter n₂ m
        ∧ (multerFileFilter n₁ m = .accept
            ∨ multerFileFilter n₁ m
              = .reject "Invalid file type. Only JPEG, PNG and GIF are allowed.")
        ∧ (imageFileFilter n₁ m = .accept
            ∨ imageFileFilter n₁ m = .reject "Only images are allowed")
        ∧ imageFileFilter "x.jpga" "image/jpeg" = .accept
        ∧ imageTokens.contains "jpga" = false
        ∧ multerFileFilter "malware.exe" "image/png" = .accept := by
  intro n₁ n₂ m
  refine ⟨rfl, ?_, ?_, by decide, by decide, by decide⟩
  · by_cases h : allowedTypes.contains m <;> simp [multerFileFilter, h] <;> tauto
  · unfold imageFileFilter
    dsimp only
    split <;> simp

/-- Claim C5: a file the configured validator rejects never reaches the
filesystem — the pipeline performs no write and surfaces the rejection.
The pipeline itself is modelled from the spec (multer library code, not
under src/); the statement is generic in the filter and is instantiated
with the repository's own validators in the witness. -/
theorem c5_reject_no_write :
    ∀ (filter : String → String → FilterResult) (nameGen : String → String)
      (dest n m r : String),
      filter n m = .reject r →
        (processFile filter nameGen dest n m).writes = []
          ∧ (processFile filter nameGen dest n m).decision = .reject r := by
  intro filter nameGen dest n m r h
  unfold processFile
  rw [h]
  exact ⟨rfl, rfl⟩

/-- Witness for `c5_reject_no_write`: the multer.js validator rejects the
scenario-B file and the pipeline stages nothing. -/
theorem c5_reject_no_write_witness :
    multerFileFilter "malware.exe" "application/x-msdownload"
        = .reject "Invalid file type. Only JPEG, PNG and GIF are allowed."
      ∧ (processFile multerFileFilter (fun o => multerFilename o 5) "uploads/"
          "malware.exe" "application/x-msdownload").writes = [] :=
  ⟨by decide,
   (c5_reject_no_write multerFileFilter (fun o => multerFilename o 5) "uploads/"
      "malware.exe" "application/x-msdownload"
      "Invalid file type. Only JPEG, PNG and GIF are allowed." (by decide)).1⟩

/-- Claim C1 counterexample: when the remote transfer succeeds but the first
unlink fails, the image pipeline makes two local delete attempts over the
request, not exactly one. -/
theorem c1_counterexample :
    ¬ ((imageHandler (some ⟨"uploads/a.png"⟩)
        ⟨Except.ok ⟨"https://u", "pid"⟩, false, true, true⟩).attempts = 1) := by
  decide

/-- Claim C1 (amended): for every staged file, at least one local delete
attempt occurs whether the remote transfer succeeded or failed — between one
and two attempts in the image pipeline and between one and three in the
profile pipeline — and the staged file does not exist after the pipeline
completes exactly when one of the attempts made succeeded (so it can
survive when every attempt fails). -/
theorem c1_delete_attempts_amended :
    ∀ (f : StagedFile) (u uid : Option String) (env : CloudEnv),
      1 ≤ (imageHandler (some f) env).attempts
        ∧ (imageHandler (some f) env).attempts ≤ 2
        ∧ (imageHandler (some f) env).fileGone
          = (env.u1 || (uploadOk env && env.u2))
        ∧ 1 ≤ (profileHandler (some f) u uid env).attempts
        ∧ (profileHandler (some f) u uid env).attempts ≤ 3
        ∧ (profileHandler (some f) u uid env).fileGone
          = (env.u1 || uploadOk env && env.u2
              || !(uploadOk env && env.u1) && env.u3) := by
  intro f u uid env
  rcases env with ⟨ur, u1, u2, u3⟩
  cases ur <;> cases u1 <;> cases u2 <;> cases u3 <;>
    simp [imageHandler, profileHandler, uploadAndCleanup, attemptUnlink,
      deleteLocalFile, uploadOk]

/-- Claim C2 counterexample: staging succeeded and the remote upload
rejected, yet the image handler answers 200 `Image uploaded successfully`
with `undefined` data — no error response, and the provider detail appears
nowhere in the body. -/
theorem c2_counterexample :
    (imageHandler (some ⟨"uploads/b.png"⟩)
        ⟨Except.error "simulated network error", true, true, true⟩).resp.status = 200
      ∧ (imageHandler (some ⟨"uploads/b.png"⟩)
          ⟨Except.error "simulated network error", true, true, true⟩).resp.body
        = .imageOk none
      ∧ "simulated network error" ∉
          bodyStrings (imageHandler (some ⟨"uploads/b.png"⟩)
            ⟨Except.error "simulated network error", true, true, true⟩).resp.body := by
  decide

/-- Claim C2 (amended): when staging succeeds and the remote upload call
fails, exactly one unlink attempt is made inside `uploadAndCleanup` (the
staged file is gone iff it succeeds) and no RemoteDescriptor is returned —
but the caller receives no error response carrying the provider detail: the
image handler replies 200 with `undefined` data, and the profile handler
replies 500 whose `details` is its own TypeError message (the provider
error was swallowed inside `uploadAndCleanup`). -/
theorem c2_transfer_failure_amended :
    ∀ (f : StagedFile) (u uid : Option String) (env : CloudEnv) (e : String),
      env.uploadResult = .error e →
        (imageHandler (some f) env).resp.status = 200
          ∧ (imageHandler (some f) env).resp.body = .imageOk none
          ∧ (imageHandler (some f) env).attempts = 1
          ∧ (imageHandler (some f) env).fileGone = env.u1
          ∧ (profileHandler (some f) u uid env).resp.status = 500
          ∧ (profileHandler (some f) u uid env).resp.body
            = .serverErr "Server error" typeErrMsg := by
  intro f u uid env e h
  rcases env with ⟨ur, u1, u2, u3⟩
  simp only at h
  subst h
  cases u1 <;>
    simp [imageHandler, profileHandler, uploadAndCleanup, attemptUnlink,
      deleteLocalFile]

/-- Witness for `c2_transfer_failure_amended` at a concrete failed
transfer. -/
theorem c2_transfer_failure_amended_witness :
    (imageHandler (some ⟨"uploads/b.png"⟩)
        ⟨Except.error "boom", true, true, true⟩).resp.status = 200
      ∧ (imageHandler (some ⟨"uploads/b.png"⟩)
          ⟨Except.error "boom", true, true, true⟩).resp.body = .imageOk none
      ∧ (imageHandler (some ⟨"uploads/b.png"⟩)
          ⟨Except.error "boom", true, true, true⟩).attempts = 1
      ∧ (imageHandler (some ⟨"uploads/b.png"⟩)
          ⟨Except.error "boom", true, true, true⟩).fileGone
        = (⟨Except.error "boom", true, true, true⟩ : CloudEnv).u1
      ∧ (profileHandler (some ⟨"uploads/b.png"⟩) none none
          ⟨Except.error "boom", true, true, true⟩).resp.status = 500
      ∧ (profileHandler (some ⟨"uploads/b.png"⟩) none none
          ⟨Except.error "boom", true, true, true⟩).resp.body
        = .serverErr "Server error" typeErrMsg :=
  c2_transfer_failure_amended ⟨"uploads/b.png"⟩ none none
    ⟨Except.error "boom", true, true, true⟩ "boom" rfl

/-- Claim C6 counterexample: the remote transfer succeeded, the first local
delete failed — and the profile handler reports a 500 server error instead
of the success response with the RemoteDescriptor. -/
theorem c6_counterexample :
    (profileHandler (some ⟨"uploads/c.png"⟩) (some "ray") (some "42")
        ⟨Except.ok ⟨"https://x", "pid"⟩, false, true, true⟩).resp.status = 500
      ∧ (profileHandler (some ⟨"uploads/c.png"⟩) (some "ray") (some "42")
          ⟨Except.ok ⟨"https://x", "pid"⟩, false, true, true⟩).resp.body
        = .serverErr "Server error" typeErrMsg := by
  decide

/-- Claim C6 (amended): a failure of the first local delete after a
successful remote transfer does change the reported outcome:
`uploadAndCleanup` resolves with `undefined`, so the image handler still
answers 200 but without the RemoteDescriptor in the body (and a second
delete attempt is made), while the profile handler throws reading
`secure_url`, makes a third delete attempt, and answers 500. -/
theorem c6_cleanup_failure_changes_outcome_amended :
    ∀ (f : StagedFile) (u uid : Option String) (env : CloudEnv)
      (r : RemoteResult),
      env.uploadResult = .ok r → env.u1 = false →
        (imageHandler (some f) env).resp.status = 200
          ∧ (imageHandler (some f) env).resp.body = .imageOk none
          ∧ (imageHandler (some f) env).resp.body ≠ .imageOk (some r)
          ∧ (imageHandler (some f) env).attempts = 2
          ∧ (profileHandler (some f) u uid env).resp.status = 500
          ∧ (profileHandler (some f) u uid env).resp.body
            = .serverErr "Server error" typeErrMsg
          ∧ (profileHandler (some f) u uid env).attempts = 3 := by
  intro f u uid env r h h1
  rcases env with ⟨ur, u1, u2, u3⟩
  simp only at h h1
  subst h
  subst h1
  simp [imageHandler, profileHandler, uploadAndCleanup, attemptUnlink,
    deleteLocalFile]

/-- Witness for `c6_cleanup_failure_changes_outcome_amended` at a concrete
successful transfer with a failing first unlink. -/
theorem c6_cleanup_failure_changes_outcome_amended_witness :
    (imageHandler (some ⟨"uploads/c.png"⟩)
        ⟨Except.ok ⟨"https://x", "pid"⟩, false, true, true⟩).resp.status = 200
      ∧ (imageHandler (some ⟨"uploads/c.png"⟩)
          ⟨Except.ok ⟨"https://x", "pid"⟩, false, true, true⟩).resp.body
        = .imageOk none
      ∧ (imageHandler (some ⟨"uploads/c.png"⟩)
          ⟨Except.ok ⟨"https://x", "pid"⟩, false, true, true⟩).resp.body
        ≠ .imageOk (some ⟨"https://x", "pid"⟩)
      ∧ (imageHandler (some ⟨"uploads/c.png"⟩)
          ⟨Except.ok ⟨"https://x", "pid"⟩, false, true, true⟩).attempts = 2
      ∧ (profileHandler (some ⟨"uploads/c.png"⟩) none none
          ⟨Except.ok ⟨"https://x", "pid"⟩, false, true, true⟩).resp.status = 500
      ∧ (profileHandler (some ⟨"uploads/c.png"⟩) none none
          ⟨Except.ok ⟨"https://x", "pid"⟩, false, true, true⟩).resp.body
        = .serverErr "Server error" typeErrMsg
      ∧ (profileHandler (some ⟨"uploads/c.png"⟩) none none
          ⟨Except.ok ⟨"https://x", "pid"⟩, false, true, true⟩).attempts = 3 :=
  c6_cleanup_failure_changes_outcome_amended ⟨"uploads/c.png"⟩ none none
    ⟨Except.ok ⟨"https://x", "pid"⟩, false, true, true⟩ ⟨"https://x", "pid"⟩
    rfl rfl

/-- Claim C7 counterexample: the `src/multer.js` `/upload-single` success
response (status 200) does contain the staged file's local filesystem path
(`file.path` in the body). -/
theorem c7_counterexample :
    (multerSingleHandler
        (some ⟨"a.txt", "a-5.txt", "uploads/a-5.txt", 2048⟩)).status = 200
      ∧ "uploads/a-5.txt" ∈
        bodyStrings (multerSingleHandler
          (some ⟨"a.txt", "a-5.txt", "uploads/a-5.txt", 2048⟩)).body := by
  decide

/-- Claim C7 (amended): the `src/cloudinary.js` handlers never place the
staged local path in any response body — their bodies hold only
provider-supplied strings, the echoed username/userId and two fixed error
strings, so the path is absent whenever it differs from those — but the
`src/multer.js` `/upload-single` success body always contains the staged
file's local path. -/
theorem c7_local_path_exposure_amended :
    ∀ (f : StagedFile) (u uid : Option String) (env : CloudEnv)
      (f2 : MulterFile),
      f.path ∉ envRemoteStrings env →
      f.path ∉ u.toList ++ uid.toList →
      f.path ≠ "Server error" →
      f.path ≠ typeErrMsg →
        f.path ∉ bodyStrings (imageHandler (some f) env).resp.body
          ∧ f.path ∉ bodyStrings (profileHandler (some f) u uid env).resp.body
          ∧ f2.path ∈ bodyStrings (multerSingleHandler (some f2)).body := by
  intro f u uid env f2 h1 h2 h3 h4
  rcases env with ⟨ur, u1, u2, u3⟩
  cases ur <;> cases u1 <;> cases u2 <;> cases u3 <;>
    simp_all [imageHandler, profileHandler, uploadAndCleanup, attemptUnlink,
      deleteLocalFile, envRemoteStrings, bodyStrings, multerSingleHandler]

/-- Witness for `c7_local_path_exposure_amended` at a concrete successful
upload whose provider strings differ from the staged path. -/
theorem c7_local_path_exposure_amended_witness :
    "uploads/x.png" ∉
        bodyStrings (imageHandler (some ⟨"uploads/x.png"⟩)
          ⟨Except.ok ⟨"https://u", "pid"⟩, true, true, true⟩).resp.body
      ∧ "uploads/x.png" ∉
        bodyStrings (profileHandler (some ⟨"uploads/x.png"⟩) none none
          ⟨Except.ok ⟨"https://u", "pid"⟩, true, true, true⟩).resp.body
      ∧ "uploads/a-5.txt" ∈
        bodyStrings (multerSingleHandler
          (some ⟨"a.txt", "a-5.txt", "uploads/a-5.txt", 2048⟩)).body := by
  have h := c7_local_path_exposure_amended ⟨"uploads/x.png"⟩ none none
    ⟨Except.ok ⟨"https://u", "pid"⟩, true, true, true⟩
    ⟨"a.txt", "a-5.txt", "uploads/a-5.txt", 2048⟩
    (by decide) (by decide) (by decide) (by decide)
  exact h

/-- Claim C4 counterexample: the `src/multer.js` staged name for `a.txt` at
timestamp 5 is `a-5.txt`, which does not have the claimed form
basename + `-` + timestamp + `-` + random-int + extension for any random
part whatsoever. -/
theorem c4_counterexample :
    multerFilename "a.txt" 5 = "a-5.txt"
      ∧ ¬ ∃ rs : String,
          multerFilename "a.txt" 5
            = "a" ++ "-" ++ Nat.repr 5 ++ "-" ++ rs ++ ".txt" := by
  refine ⟨by decide, ?_⟩
  rintro ⟨rs, h⟩
  have hlen := congrArg String.length h
  rw [show (multerFilename "a.txt" 5).length = 7 from by decide] at hlen
  simp only [String.length_append] at hlen
  rw [show ("a" : String).length = 1 from by decide,
    show ("-" : String).length = 1 from by decide,
    show (Nat.repr 5).length = 1 from by decide,
    show (".txt" : String).length = 4 from by decide] at hlen
  omega

/-- Claim C4 (amended): the `src/cloudinary.js` staged name has the claimed
form basename + `-` + timestamp + `-` + random-int + extension, while the
`src/multer.js` staged name is basename + `-` + timestamp + extension with
no random part; two uploads with identical original filenames receive
distinct staged paths whenever their unique-suffix strings differ
(timestamp and random for cloudinary.js, timestamp alone for multer.js) —
and only then, since the names are a function of those inputs. -/
theorem c4_staged_name_format_amended :
    ∀ (n : String) (t₁ r₁ t₂ r₂ : Nat),
      cloudFilename n t₁ r₁
          = basenameExt n (extname n) ++ "-"
            ++ (Nat.repr t₁ ++ "-" ++ Nat.repr r₁) ++ extname n
        ∧ ((Nat.repr t₁ ++ "-" ++ Nat.repr r₁)
              ≠ (Nat.repr t₂ ++ "-" ++ Nat.repr r₂) →
            cloudFilename n t₁ r₁ ≠ cloudFilename n t₂ r₂)
        ∧ multerFilename n t₁
          = basenameExt n (extname n) ++ "-" ++ Nat.repr t₁ ++ extname n
        ∧ (Nat.repr t₁ ≠ Nat.repr t₂ →
            multerFilename n t₁ ≠ multerFilename n t₂) := by
  intro n t₁ r₁ t₂ r₂
  refine ⟨rfl, ?_, rfl, ?_⟩
  · intro hS heq
    exact hS (append_middle_cancel (basenameExt n (extname n) ++ "-") _ _
      (extname n) heq)
  · intro ht heq
    exact ht (append_middle_cancel (basenameExt n (extname n) ++ "-") _ _
      (extname n) heq)

/-- Witness for `c4_staged_name_format_amended`: distinct unique suffixes
yield distinct staged paths for the same original filename — in particular
for the cloudinary.js generator at equal timestamps with different random
parts, the concurrent-upload case. -/
theorem c4_staged_name_format_amended_witness :
    cloudFilename "a.txt" 1 2 ≠ cloudFilename "a.txt" 1 3
      ∧ multerFilename "a.txt" 1 ≠ multerFilename "a.txt" 3 :=
  ⟨(c4_staged_name_format_amended "a.txt" 1 2 1 3).2.1 (by decide),
   (c4_staged_name_format_amended "a.txt" 1 2 3 4).2.2.2 (by decide)⟩
